import Mathlib

/-!
# Verification of the script-to-video alignment core (`backend/app/workers/alignment.py`)

Shallow embedding of the alignment pipeline of the movie-recap repository:
Script Segmenter (`parse_script_file`), Transcript Segmenter
(`process_transcript_segments`, `create_segments_from_words`), Matcher
(`perform_semantic_matching` with `compute_length_similarity`,
`compute_position_similarity`), Temporal Refiner (`refine_alignment_temporal`)
and Quality Validator (`validate_alignment_quality`).

Python floats are modelled as `ℚ` (all constants in the source are decimal
literals and all operations are field operations, so the rational model is
exact on every input we evaluate).  Python dicts with a fixed key set are
modelled as structures; keys that the producer leaves absent but that readers
access through `dict.get(key, default)` are modelled as fields initialised to
that default (`temporal_conflict ↦ false`, `flagged_reason ↦ none`,
`manual_review_required ↦ false`).  Fallible code returns `Except PyError`.
-/

namespace MovieRecap

/-- Python-level error classes that the embedded code can raise.
`invalidInputError` is the error class named by the specification for the
Matcher's empty-input failure; it does not occur anywhere in the repository's
code, but having it as a constructor lets the spec's claim be stated. -/
inductive PyError where
  | valueError : PyError
  | indexError : PyError
  | noTranscriptData : PyError
  | invalidInputError : PyError
deriving DecidableEq

/-- An entry of `alternative_matches` built by `perform_semantic_matching`
(lines 378-386): segment id, time span and raw similarity score. -/
structure AltMatch where
  segment_id : String
  start_time : ℚ
  end_time : ℚ
  confidence : ℚ
deriving DecidableEq

/-- The `confidence_factors` dict of an alignment (lines 355-360). -/
structure ConfidenceFactors where
  semantic_similarity : ℚ
  length_similarity : ℚ
  position_similarity : ℚ
  transcript_confidence : ℚ
deriving DecidableEq

/-- One alignment dict as produced by `perform_semantic_matching`
(lines 370-387) and later mutated in place by `refine_alignment_temporal`.
`temporal_conflict`, `manual_review_required` and `flagged_reason` are absent
in the Matcher's output; every reader accesses them with defaults
(`a.get('temporal_conflict', False)`), so absence is modelled as
`false` / `none`. -/
structure Alignment where
  scene_number : Nat
  scene_text : String
  matched_segment_id : String
  video_start_time : ℚ
  video_end_time : ℚ
  confidence : ℚ
  confidence_factors : ConfidenceFactors
  alternative_matches : List AltMatch
  temporal_conflict : Bool
  manual_review_required : Bool
  flagged_reason : Option String
deriving DecidableEq

/-- `settings.ALIGNMENT_CONFIDENCE_THRESHOLD` (core/config.py line 71). -/
def ALIGNMENT_CONFIDENCE_THRESHOLD : ℚ := 7/10

/-- The fixed `overlap_penalty = 0.3` of `refine_alignment_temporal`
(line 440). -/
def overlap_penalty : ℚ := 3/10

/-- One iteration of the repair loop of `refine_alignment_temporal`
(lines 433-453) acting on `current`, with `previous` already holding its
final (possibly repaired) value: on overlap, multiply the confidence by
`1 - overlap_penalty`, set `temporal_conflict`, then substitute the first
alternative whose start is at or after `previous`'s end, if any. -/
def repairStep (previous current : Alignment) : Alignment :=
  if current.video_start_time < previous.video_end_time then
    let penalized : Alignment :=
      { current with
        confidence := current.confidence * (1 - overlap_penalty),
        temporal_conflict := true }
    match penalized.alternative_matches.find?
        (fun alt => previous.video_end_time ≤ alt.start_time) with
    | some alt =>
      { penalized with
        video_start_time := alt.start_time,
        video_end_time := alt.end_time,
        matched_segment_id := alt.segment_id,
        confidence := alt.confidence,
        temporal_conflict := false }
    | none => penalized
  else current

/-- Tail of the repair loop: each element is updated against the already
updated element before it (the Python loop mutates the list in place, so
index `i` sees index `i-1`'s final value). -/
def repairPassGo (previous : Alignment) : List Alignment → List Alignment
  | [] => []
  | current :: rest =>
    let updated := repairStep previous current
    updated :: repairPassGo updated rest

/-- The whole repair loop of `refine_alignment_temporal` (lines 433-453);
the element at index 0 is never modified. -/
def repairPass : List Alignment → List Alignment
  | [] => []
  | first :: rest => first :: repairPassGo first rest

/-- The flagging loop of `refine_alignment_temporal` (lines 456-461):
below the threshold set `manual_review_required` and `flagged_reason`,
otherwise clear only `manual_review_required` (the reason is left as is). -/
def flagLowConfidence (threshold : ℚ) (a : Alignment) : Alignment :=
  if a.confidence < threshold then
    { a with
      manual_review_required := true,
      flagged_reason := some "low_confidence_alignment" }
  else
    { a with manual_review_required := false }

/-- Stable insertion of an alignment into a list sorted by `scene_number`;
an element with an equal key is inserted before the existing ones it meets,
matching the stability of Python's `list.sort`. -/
def insertByScene (a : Alignment) : List Alignment → List Alignment
  | [] => [a]
  | b :: bs =>
    if a.scene_number ≤ b.scene_number then a :: b :: bs
    else b :: insertByScene a bs

/-- `refined_alignments.sort(key=lambda x: x['scene_number'])` (line 430):
a stable sort by `scene_number`, modelled as stable insertion sort (any two
stable sorts by the same key agree, so this is extensionally Python's sort). -/
def sortByScene : List Alignment → List Alignment
  | [] => []
  | a :: rest => insertByScene a (sortByScene rest)

/-- `refine_alignment_temporal` (lines 424-463): stable sort by scene
number, in-place pairwise temporal repair, then per-element low-confidence
flagging against `settings.ALIGNMENT_CONFIDENCE_THRESHOLD` (here a
parameter, instantiated with 0.7 in the claims). -/
def refine_alignment_temporal (threshold : ℚ) (alignments : List Alignment) :
    List Alignment :=
  (repairPass (sortByScene alignments)).map (flagLowConfidence threshold)

/-- `np.mean` over a list of rationals: sum divided by length (only ever
applied to non-empty lists in the embedded code paths). -/
def listMean (xs : List ℚ) : ℚ := xs.sum / xs.length

/-- Python `' '.join(...)`. -/
def joinSpace (ss : List String) : String := String.intercalate " " ss

/-- Python regex `\\s` / `str.strip` whitespace: the six ASCII whitespace
characters. -/
def isWsChar (c : Char) : Bool :=
  c = ' ' ∨ c = '\t' ∨ c = '\n' ∨ c = '\r' ∨ c = '\x0b' ∨ c = '\x0c'

/-- Python `str.strip()`: remove leading and trailing whitespace (char-list
implementation, since the core position-based `String.trim` does not
reduce). -/
def pyStrip (s : String) : String :=
  String.mk (((s.data.dropWhile isWsChar).reverse.dropWhile isWsChar).reverse)

/-- `content.split('\n')` on the character list: split at every newline,
keeping empty pieces (so `""` yields `[""]`,  matching Python). -/
def splitCharsOnNl : List Char → List (List Char)
  | [] => [[]]
  | c :: cs =>
    if c = '\n' then [] :: splitCharsOnNl cs
    else
      match splitCharsOnNl cs with
      | [] => [[c]]
      | piece :: rest => (c :: piece) :: rest

/-- Python `content.split('\n')`. -/
def pySplitLinesNl (s : String) : List String :=
  (splitCharsOnNl s.data).map String.mk

/-- Accumulator loop for Python `str.split()` with no separator: maximal
non-whitespace runs, empties discarded. -/
def pySplitWsGo (current : List Char) : List Char → List String
  | [] => if current.isEmpty then [] else [String.mk current.reverse]
  | c :: cs =>
    if isWsChar c then
      if current.isEmpty then pySplitWsGo [] cs
      else String.mk current.reverse :: pySplitWsGo [] cs
    else pySplitWsGo (c :: current) cs

/-- Python `str.split()` with no argument. -/
def pySplitWs (s : String) : List String := pySplitWsGo [] s.data

/-- Python `str.upper()` for the case-insensitive regex matching. -/
def pyToUpper (s : String) : String := String.mk (s.data.map Char.toUpper)

/-- One word-level timestamp entry of the transcript
(`{word, start, end, confidence}`); `confidence` is read through
`w.get('confidence', 0.0)`, modelled as an always-present field. -/
structure Word where
  word : String
  start : ℚ
  «end» : ℚ
  confidence : ℚ
deriving DecidableEq

/-- A base transcript segment (`{start, end, text, confidence}`), either
supplied in `transcript_data["segments"]` or synthesized from words. -/
structure BaseSeg where
  start : ℚ
  «end» : ℚ
  text : String
  confidence : ℚ
deriving DecidableEq

/-- The loop body of `create_segments_from_words` (lines 267-285).
`wordsLast` is `words[-1]`; note that the source's closing test
`word == words[-1]` is Python VALUE equality of the word dicts, which the
embedding reproduces with `word = wordsLast`.  A group left open when the
list ends is dropped, as in the source (this can only happen vacuously,
since the last word always compares equal to itself). -/
def create_segments_from_words_go (wordsLast : Word) (segment_duration : ℚ)
    (current_segment : List Word) (current_start : ℚ) :
    List Word → List BaseSeg
  | [] => []
  | word :: rest =>
    let start := if current_segment.isEmpty then word.start else current_start
    let group := current_segment ++ [word]
    if segment_duration ≤ word.«end» - start ∨ word = wordsLast then
      { start := start, «end» := word.«end»,
        text := joinSpace (group.map (fun w => w.word)),
        confidence := listMean (group.map (fun w => w.confidence)) }
        :: create_segments_from_words_go wordsLast segment_duration [] start rest
    else
      create_segments_from_words_go wordsLast segment_duration group start rest

/-- `create_segments_from_words` (lines 260-287): greedily group consecutive
words, closing a group when `word['end'] - current_start >= segment_duration`
or when `word == words[-1]` (value equality).  The call site uses the default
`segment_duration = 10.0`. -/
def create_segments_from_words (words : List Word) (segment_duration : ℚ) :
    List BaseSeg :=
  match words.getLast? with
  | none => []
  | some wordsLast =>
    create_segments_from_words_go wordsLast segment_duration [] 0 words

/-- One output entry of `process_transcript_segments` (lines 236-255). -/
structure TSegment where
  segment_id : String
  start_time : ℚ
  end_time : ℚ
  text : String
  confidence : ℚ
  window_type : String
deriving DecidableEq

/-- The local constant `window_size = 3` of `process_transcript_segments`
(line 232). -/
def window_size : Nat := 3

/-- The loop of `process_transcript_segments` (lines 234-255): for each base
segment index `i` emit a `"single"` entry, and additionally a `"window"`
entry spanning indices `[i, i+2]` when `i + window_size <= len(segments)`,
i.e. exactly when at least two further base segments follow. -/
def buildWindowSegments (i : Nat) : List BaseSeg → List TSegment
  | [] => []
  | seg :: rest =>
    ({ segment_id := "single_" ++ toString i,
       start_time := seg.start, end_time := seg.«end»,
       text := pyStrip seg.text, confidence := seg.confidence,
       window_type := "single" } : TSegment)
    :: ((match rest with
        | b :: c :: _ =>
          [{ segment_id :=
               "window_" ++ toString i ++ "_" ++ toString (i + window_size - 1),
             start_time := seg.start, end_time := c.«end»,
             text := joinSpace [pyStrip seg.text, pyStrip b.text, pyStrip c.text],
             confidence := listMean [seg.confidence, b.confidence, c.confidence],
             window_type := "window" }]
        | _ => [])
      ++ buildWindowSegments (i + 1) rest)

/-- The transcript payload: `transcript_data.get("segments", [])` and
`transcript_data.get("words", [])`. -/
structure Transcript where
  segments : List BaseSeg
  words : List Word
deriving DecidableEq

/-- `process_transcript_segments` (lines 217-257): use the supplied base
segments, or synthesize them from words, or raise
(`"No transcript segments or words available"`), then build the
single/window candidate pool. -/
def process_transcript_segments (transcript : Transcript) :
    Except PyError (List TSegment) :=
  if transcript.segments.isEmpty then
    if transcript.words.isEmpty then .error .noTranscriptData
    else .ok (buildWindowSegments 0 (create_segments_from_words transcript.words 10))
  else .ok (buildWindowSegments 0 transcript.segments)

/-- The `quality_factors` dict of `validate_alignment_quality`
(lines 484-488). -/
structure QualityFactors where
  average_confidence : ℚ
  high_confidence_ratio : ℚ
  temporal_consistency : ℚ
deriving DecidableEq

/-- The `scene_statistics` dict of `validate_alignment_quality`
(lines 507-513). -/
structure SceneStatistics where
  total_scenes : Nat
  high_confidence : Nat
  medium_confidence : Nat
  low_confidence : Nat
  temporal_conflicts : Nat
deriving DecidableEq

/-- The result dict of `validate_alignment_quality` (lines 503-516),
without the constant `"status": "success"` field. -/
structure QualityReport where
  quality_score : ℚ
  quality_factors : QualityFactors
  scene_statistics : SceneStatistics
  needs_manual_review : Bool
  recommendations : List String
deriving DecidableEq

/-- `generate_alignment_recommendations` (lines 526-544). -/
def generate_alignment_recommendations (alignments : List Alignment)
    (quality_factors : QualityFactors) : List String :=
  (if quality_factors.average_confidence < 6/10 then
    ["Consider reviewing script content for clarity and detail"] else [])
  ++ (if quality_factors.high_confidence_ratio < 5/10 then
    ["Many scenes have low confidence matches - manual review recommended"]
    else [])
  ++ (if quality_factors.temporal_consistency < 8/10 then
    ["Temporal order issues detected - check scene sequence"] else [])
  ++ (if (alignments.filter (fun a => a.confidence < 5/10)).isEmpty then []
    else [toString (alignments.filter (fun a => a.confidence < 5/10)).length
      ++ " scenes need manual review"])

/-- `validate_alignment_quality` (lines 467-516), the pure body of the task
(the surrounding try/except only re-raises; the body itself never fails). -/
def validate_alignment_quality (alignments : List Alignment) : QualityReport :=
  let total_scenes := alignments.length
  let high_confidence_scenes :=
    (alignments.filter (fun a => 8/10 < a.confidence)).length
  let medium_confidence_scenes :=
    (alignments.filter (fun a => 5/10 ≤ a.confidence ∧ a.confidence ≤ 8/10)).length
  let low_confidence_scenes :=
    (alignments.filter (fun a => a.confidence < 5/10)).length
  let confidence_scores := alignments.map (fun a => a.confidence)
  let average_confidence :=
    if confidence_scores.isEmpty then 0 else listMean confidence_scores
  let temporal_conflicts :=
    (alignments.filter (fun a => a.temporal_conflict)).length
  let quality_factors : QualityFactors :=
    { average_confidence := average_confidence,
      high_confidence_ratio :=
        if 0 < total_scenes then (high_confidence_scenes : ℚ) / total_scenes
        else 0,
      temporal_consistency :=
        if 0 < total_scenes then 1 - (temporal_conflicts : ℚ) / total_scenes
        else 1 }
  let overall_score :=
    quality_factors.average_confidence * (5/10)
    + quality_factors.high_confidence_ratio * (3/10)
    + quality_factors.temporal_consistency * (2/10)
  { quality_score := overall_score,
    quality_factors := quality_factors,
    scene_statistics :=
      { total_scenes := total_scenes,
        high_confidence := high_confidence_scenes,
        medium_confidence := medium_confidence_scenes,
        low_confidence := low_confidence_scenes,
        temporal_conflicts := temporal_conflicts },
    needs_manual_review :=
      decide (overall_score < 6/10
        ∨ (total_scenes : ℚ) * (3/10) < (low_confidence_scenes : ℚ)
        ∨ (total_scenes : ℚ) * (1/10) < (temporal_conflicts : ℚ)),
    recommendations :=
      generate_alignment_recommendations alignments quality_factors }

/-- A script scene as produced by `parse_script_file` (lines 125-214);
`word_count` is always present in an emitted scene, so
`scene.get('word_count', ...)` in `compute_length_similarity` always takes
the stored value. -/
structure Scene where
  scene_number : Nat
  text : String
  word_count : Nat
  markers : List String
deriving DecidableEq

/-- Stable insertion of an `(index, value)` pair, ordered by value. -/
def insertIdxVal (p : Nat × ℚ) : List (Nat × ℚ) → List (Nat × ℚ)
  | [] => [p]
  | q :: qs => if p.2 ≤ q.2 then p :: q :: qs else q :: insertIdxVal p qs

/-- Stable insertion sort of `(index, value)` pairs by value. -/
def sortIdxVal : List (Nat × ℚ) → List (Nat × ℚ)
  | [] => []
  | p :: ps => insertIdxVal p (sortIdxVal ps)

/-- `np.argsort(xs)[::-1]` (line 348): indices of `xs` sorted by value
ascending, then reversed.  Ties are resolved by ascending index before the
reversal (`np.argsort`'s default quicksort leaves tie order unspecified; the
claims evaluated on concrete inputs have no ties). -/
def npArgsortDesc (xs : List ℚ) : List Nat :=
  ((sortIdxVal xs.enum).map (fun p => p.1)).reverse

/-- `compute_length_similarity` (lines 394-409). -/
def compute_length_similarity (scene : Scene) (segment : TSegment) : ℚ :=
  let scene_words : ℚ := scene.word_count
  let segment_duration := segment.end_time - segment.start_time
  let estimated_words := segment_duration / 60 * 150
  if estimated_words = 0 then 0
  else min scene_words estimated_words / max scene_words estimated_words

/-- `compute_position_similarity` (lines 412-421).  Python's
`max(1, total - 1)` on ints agrees with `max 1 (total - 1)` on `Nat` for
every `total : Nat` (at `total = 0` both give 1). -/
def compute_position_similarity
    (scene_idx segment_idx total_scenes total_segments : Nat) : ℚ :=
  let scene_position : ℚ := (scene_idx : ℚ) / ((max 1 (total_scenes - 1) : Nat) : ℚ)
  let segment_position : ℚ :=
    (segment_idx : ℚ) / ((max 1 (total_segments - 1) : Nat) : ℚ)
  1 - |scene_position - segment_position|

/-- Sequential effectful map over `Except`, stopping at the first error —
the semantics of a Python list comprehension whose body may raise. -/
def mapExcept (f : α → Except PyError β) : List α → Except PyError (List β)
  | [] => .ok []
  | x :: xs =>
    match f x with
    | .error e => .error e
    | .ok y =>
      match mapExcept f xs with
      | .error e => .error e
      | .ok ys => .ok (y :: ys)

/-- One entry of the `alternative_matches` comprehension (lines 378-386):
`segments[idx]` and `scene_similarities[idx]` (an out-of-range index raises
IndexError, as numpy/list indexing would). -/
def buildAltMatch (segments : List TSegment) (scene_similarities : List ℚ)
    (idx : Nat) : Except PyError AltMatch :=
  match segments[idx]?, scene_similarities[idx]? with
  | some seg, some v =>
    .ok { segment_id := seg.segment_id, start_time := seg.start_time,
          end_time := seg.end_time, confidence := v }
  | _, _ => .error .indexError

/-- The per-scene body of the Matcher loop (lines 343-389): rank segments by
similarity descending, take the top 5, build the composite confidence from
the four factors with weights 0.5/0.2/0.2/0.1, keep ranks 2-3 as
alternatives, and truncate the scene text preview at 200 characters. -/
def matchScene (total_scenes total_segments : Nat) (segments : List TSegment)
    (i : Nat) (scene : Scene) (scene_similarities : List ℚ) :
    Except PyError Alignment :=
  match (npArgsortDesc scene_similarities).take 5 with
  | [] => .error .indexError
  | best_match_idx :: alt_indices =>
    match segments[best_match_idx]?, scene_similarities[best_match_idx]? with
    | some best_segment, some confidence =>
      let confidence_factors : ConfidenceFactors :=
        { semantic_similarity := confidence,
          length_similarity := compute_length_similarity scene best_segment,
          position_similarity :=
            compute_position_similarity i best_match_idx total_scenes total_segments,
          transcript_confidence := best_segment.confidence }
      let final_confidence :=
        confidence_factors.semantic_similarity * (5/10)
        + confidence_factors.length_similarity * (2/10)
        + confidence_factors.position_similarity * (2/10)
        + confidence_factors.transcript_confidence * (1/10)
      match mapExcept (buildAltMatch segments scene_similarities)
          (alt_indices.take 2) with
      | .error e => .error e
      | .ok alts =>
        .ok { scene_number := scene.scene_number,
              scene_text :=
                if 200 < scene.text.length then scene.text.take 200 ++ "..."
                else scene.text,
              matched_segment_id := best_segment.segment_id,
              video_start_time := best_segment.start_time,
              video_end_time := best_segment.end_time,
              confidence := final_confidence,
              confidence_factors := confidence_factors,
              alternative_matches := alts,
              temporal_conflict := false,
              manual_review_required := false,
              flagged_reason := none }
    | _, _ => .error .indexError

/-- `sklearn.metrics.pairwise.cosine_similarity(X, Y)` (line 339): its input
validation (`check_array`) raises `ValueError` when either input has zero
samples; otherwise it returns the matrix of pairwise cosine values.  The
cosine value itself needs real square roots, so it is abstracted as an
oracle `sim`; on unit-norm rows the true cosine equals the plain dot
product, which the concrete evaluations below use. -/
def cosine_similarity (sim : List ℚ → List ℚ → ℚ) (X Y : List (List ℚ)) :
    Except PyError (List (List ℚ)) :=
  if X.isEmpty ∨ Y.isEmpty then .error .valueError
  else .ok (X.map (fun x => Y.map (fun y => sim x y)))

/-- Exact cosine similarity of unit-norm vectors: the dot product. -/
def dotProduct : List ℚ → List ℚ → ℚ
  | [], _ => 0
  | _ :: _, [] => 0
  | a :: as1, b :: bs => a * b + dotProduct as1 bs

/-- The Matcher loop over `enumerate(scenes)` (lines 343-389):
`similarity_matrix[i]` for consecutive `i`, walking the rows in step with
the scenes (a missing row raises IndexError). -/
def matchScenesGo (segments : List TSegment) (total_scenes total_segments : Nat) :
    Nat → List Scene → List (List ℚ) → Except PyError (List Alignment)
  | _, [], _ => .ok []
  | _, _ :: _, [] => .error .indexError
  | i, scene :: scenes, row :: rows =>
    match matchScene total_scenes total_segments segments i scene row with
    | .error e => .error e
    | .ok a =>
      match matchScenesGo segments total_scenes total_segments (i + 1) scenes rows with
      | .error e => .error e
      | .ok rest => .ok (a :: rest)

/-- `perform_semantic_matching` (lines 330-391). -/
def perform_semantic_matching (sim : List ℚ → List ℚ → ℚ)
    (scenes : List Scene) (segments : List TSegment)
    (scene_embeddings segment_embeddings : List (List ℚ)) :
    Except PyError (List Alignment) :=
  match cosine_similarity sim scene_embeddings segment_embeddings with
  | .error e => .error e
  | .ok similarity_matrix =>
    matchScenesGo segments scenes.length segments.length 0 scenes similarity_matrix

/-- Does `pat` occur as a prefix of `cs`? -/
def charsStartWith : List Char → List Char → Bool
  | [], _ => true
  | _ :: _, [] => false
  | p :: ps, c :: cs => p = c && charsStartWith ps cs

/-- `re.search` of a literal pattern: does `pat` occur anywhere in `cs`? -/
def containsSeq (pat : List Char) : List Char → Bool
  | [] => charsStartWith pat []
  | c :: cs => charsStartWith pat (c :: cs) || containsSeq pat cs

/-- Match `\s+\d+` at the head of `cs`: at least one whitespace character,
then (after the maximal whitespace run, which is where backtracking lands
since `\s` and `\d` are disjoint) at least one digit. -/
def matchWsDigits (cs : List Char) : Bool :=
  match cs with
  | [] => false
  | c :: rest =>
    isWsChar c &&
      (match rest.dropWhile isWsChar with
       | [] => false
       | d :: _ => d.isDigit)

/-- `re.search(word + r'\s+\d+', line)`: an occurrence of `word` followed by
`\s+\d+` somewhere in the line. -/
def searchWordWsDigits (word : List Char) : List Char → Bool
  | [] => false
  | c :: cs =>
    (charsStartWith word (c :: cs) && matchWsDigits ((c :: cs).drop word.length))
      || searchWordWsDigits word cs

/-- Match `\s+[IVX]+` at the head of `cs` (for `ACT\s+[IVX]+`; on the
upper-cased line the class `[IVX]` with IGNORECASE is just `I`, `V`, `X`). -/
def matchWsRoman (cs : List Char) : Bool :=
  match cs with
  | [] => false
  | c :: rest =>
    isWsChar c &&
      (match rest.dropWhile isWsChar with
       | [] => false
       | d :: _ => d = 'I' || d = 'V' || d = 'X')

/-- `re.search(r'ACT\s+[IVX]+', line, IGNORECASE)` on the upper-cased line. -/
def searchActRoman : List Char → Bool
  | [] => false
  | c :: cs =>
    (charsStartWith "ACT".data (c :: cs) && matchWsRoman ((c :: cs).drop 3))
      || searchActRoman cs

/-- `re.search(r'^\d+\.', line)`: the line starts with one or more digits
followed by a dot (`\d+` is maximal before the dot since `\d` and `.` are
disjoint). -/
def startsDigitsDot (cs : List Char) : Bool :=
  match cs with
  | [] => false
  | c :: _ =>
    c.isDigit &&
      (match cs.dropWhile Char.isDigit with
       | [] => false
       | d :: _ => d = '.')

/-- The marker test of `parse_script_file` (lines 152-178): the line matches
one of the seven case-insensitive `scene_patterns`.  Case-insensitivity is
realised by matching the upper-cased patterns against the upper-cased line
(the anchored digit pattern is case-free and is checked on the raw line). -/
def isSceneMarkerLine (line : String) : Bool :=
  let u := (pyToUpper line).data
  searchWordWsDigits "SCENE".data u
  || containsSeq "INT.".data u
  || containsSeq "EXT.".data u
  || containsSeq "FADE IN:".data u
  || containsSeq "CUT TO:".data u
  || startsDigitsDot line.data
  || searchWordWsDigits "CHAPTER".data u
  || searchActRoman u

/-- The scene dict under construction, before `word_count` is filled in at
scene-close time. -/
structure SceneBuilder where
  scene_number : Nat
  text : String
  markers : List String
deriving DecidableEq

/-- Closing a scene (lines 182-184 / 201-203): strip the accumulated text
and compute `word_count = len(text.split())`. -/
def finishScene (b : SceneBuilder) : Scene :=
  { scene_number := b.scene_number, text := pyStrip b.text,
    word_count := (pySplitWs (pyStrip b.text)).length, markers := b.markers }

/-- The line loop of `parse_script_file` (lines 167-197).  On a marker line
with non-empty accumulated text the current scene is closed and the next
builder takes the CURRENT value of the running counter before it is
incremented — exactly as the source does. -/
def parseScriptLoop (current : SceneBuilder) (scene_number : Nat)
    (acc : List Scene) : List String → List Scene × SceneBuilder
  | [] => (acc, current)
  | rawLine :: rest =>
    let line := pyStrip rawLine
    if line.isEmpty then parseScriptLoop current scene_number acc rest
    else
      let is_scene_marker := isSceneMarkerLine line
      if is_scene_marker ∧ ¬(pyStrip current.text).isEmpty then
        parseScriptLoop
          { scene_number := scene_number, text := "", markers := [line] }
          (scene_number + 1) (acc ++ [finishScene current]) rest
      else if is_scene_marker then
        parseScriptLoop { current with markers := current.markers ++ [line] }
          scene_number acc rest
      else
        parseScriptLoop { current with text := current.text ++ " " ++ line }
          scene_number acc rest

/-- `parse_script_file` from the decoded `content` onward (lines 148-214):
split on newlines, run the line loop from `{'scene_number': 1, 'text': '',
'markers': []}` with the counter at 1, flush a trailing non-empty scene, and
fall back to one whole-content scene when nothing was detected. -/
def parse_script_content (content : String) : List Scene :=
  let start : SceneBuilder := { scene_number := 1, text := "", markers := [] }
  let result := parseScriptLoop start 1 [] (pySplitLinesNl content)
  let scenes :=
    if (pyStrip result.2.text).isEmpty then result.1
    else result.1 ++ [finishScene result.2]
  if scenes.isEmpty then
    [{ scene_number := 1, text := pyStrip content,
       word_count := (pySplitWs content).length, markers := [] }]
  else scenes

/-! ## Specification-side observers and concrete evaluation inputs -/

/-- Observer: the confidences of a successful Matcher result (empty on
error). -/
def okConfidences : Except PyError (List Alignment) → List ℚ
  | .ok l => l.map (fun a => a.confidence)
  | .error _ => []

/-- Observer: the fields of an alignment that the Temporal Refiner never
writes (`scene_number`, `scene_text`, `confidence_factors`,
`alternative_matches`). -/
def frameFields (a : Alignment) :
    Nat × String × ConfidenceFactors × List AltMatch :=
  (a.scene_number, a.scene_text, a.confidence_factors, a.alternative_matches)

/-- The consecutive-pair property claimed for the Refiner's output: the
later alignment is flagged as a temporal conflict, or it starts no earlier
than its predecessor ends. -/
def TemporalOk (p c : Alignment) : Prop :=
  c.temporal_conflict = true ∨ p.video_end_time ≤ c.video_start_time

/-- Ordering by `scene_number`, the Refiner's sort key. -/
def SceneOrdered (x y : Alignment) : Prop := x.scene_number ≤ y.scene_number

/-- The later alignment starts no earlier than its predecessor ends. -/
def NonOverlapping (p c : Alignment) : Prop :=
  p.video_end_time ≤ c.video_start_time

/-- Confidence-boundedness of an alignment together with its preserved
alternatives (the alternatives feed the Refiner's repair substitution). -/
def ConfWithin01 (a : Alignment) : Prop :=
  (0 ≤ a.confidence ∧ a.confidence ≤ 1)
  ∧ ∀ alt ∈ a.alternative_matches, 0 ≤ alt.confidence ∧ alt.confidence ≤ 1

instance (p c : Alignment) : Decidable (NonOverlapping p c) :=
  inferInstanceAs (Decidable (p.video_end_time ≤ c.video_start_time))

/-- Executable check that consecutive alignments do not overlap. -/
def nonOverlapB : List Alignment → Bool
  | [] => true
  | [_] => true
  | p :: c :: rest => decide (NonOverlapping p c) && nonOverlapB (c :: rest)

instance (p c : Alignment) : Decidable (TemporalOk p c) :=
  inferInstanceAs (Decidable (_ ∨ _))

instance (x y : Alignment) : Decidable (SceneOrdered x y) :=
  inferInstanceAs (Decidable (x.scene_number ≤ y.scene_number))

/-- A script with two marker lines and three prose blocks. -/
def exScriptText : String :=
  "Alpha beta\nINT. KITCHEN\nGamma delta\nEXT. STREET\nEpsilon"

/-- A word-level timestamp entry. -/
def exWord : Word := { word := "the", start := 0, «end» := 1, confidence := 1/2 }

/-- Concrete base transcript segments. -/
def exBase1 : BaseSeg := { start := 0, «end» := 2, text := "a", confidence := 1 }

def exBase2 : BaseSeg := { start := 2, «end» := 4, text := "b", confidence := 0 }

def exBase3 : BaseSeg := { start := 4, «end» := 6, text := "c", confidence := 1/2 }

/-- A transcript with three supplied base segments. -/
def exTranscript : Transcript := { segments := [exBase1, exBase2, exBase3], words := [] }

/-- A one-word scene. -/
def exScene : Scene := { scene_number := 1, text := "hello", word_count := 1, markers := [] }

/-- A zero-duration transcript segment with zero confidence. -/
def exSegment : TSegment :=
  { segment_id := "single_0", start_time := 0, end_time := 0, text := "x",
    confidence := 0, window_type := "single" }

/-- The alignment the Matcher produces for `exScene` matched against
`exSegment` with unit embeddings on both sides (cosine 1):
confidence `1*0.5 + 0*0.2 + 1*0.2 + 0*0.1 = 0.7`. -/
def exMatchedAlignment : Alignment :=
  { scene_number := 1, scene_text := "hello",
    matched_segment_id := "single_0", video_start_time := 0,
    video_end_time := 0, confidence := 7/10,
    confidence_factors :=
      { semantic_similarity := 1, length_similarity := 0,
        position_similarity := 1, transcript_confidence := 0 },
    alternative_matches := [], temporal_conflict := false,
    manual_review_required := false, flagged_reason := none }

/-- All-zero confidence factors for handwritten alignments. -/
def exFactors : ConfidenceFactors :=
  { semantic_similarity := 0, length_similarity := 0, position_similarity := 0,
    transcript_confidence := 0 }

/-- Scene 1 matched to video span `[0, 10]` with full confidence. -/
def exAlignOne : Alignment :=
  { scene_number := 1, scene_text := "s1", matched_segment_id := "x",
    video_start_time := 0, video_end_time := 10, confidence := 1,
    confidence_factors := exFactors, alternative_matches := [],
    temporal_conflict := false, manual_review_required := false,
    flagged_reason := none }

/-- Scene 2 overlapping scene 1 (`[5, 8]`), with no alternatives to repair
with. -/
def exAlignTwo : Alignment :=
  { exAlignOne with scene_number := 2, video_start_time := 5, video_end_time := 8 }

/-- Scene 2 starting exactly where scene 1 ends (`[10, 12]`). -/
def exAlignThree : Alignment :=
  { exAlignOne with scene_number := 2, video_start_time := 10, video_end_time := 12 }

/-- A non-overlapping low-confidence alignment (confidence 1/2). -/
def exAlignLow : Alignment := { exAlignOne with confidence := 1/2 }

/-- `exAlignLow` after the Refiner's flagging pass. -/
def exAlignLowFlagged : Alignment :=
  { exAlignLow with
    manual_review_required := true,
    flagged_reason := some "low_confidence_alignment" }

/-! ## Lemmas about the flagging pass -/

theorem flag_confidence (t : ℚ) (a : Alignment) :
    (flagLowConfidence t a).confidence = a.confidence := by
  unfold flagLowConfidence; split <;> rfl

theorem flag_temporal_conflict (t : ℚ) (a : Alignment) :
    (flagLowConfidence t a).temporal_conflict = a.temporal_conflict := by
  unfold flagLowConfidence; split <;> rfl

theorem flag_video_start_time (t : ℚ) (a : Alignment) :
    (flagLowConfidence t a).video_start_time = a.video_start_time := by
  unfold flagLowConfidence; split <;> rfl

theorem flag_video_end_time (t : ℚ) (a : Alignment) :
    (flagLowConfidence t a).video_end_time = a.video_end_time := by
  unfold flagLowConfidence; split <;> rfl

theorem flag_scene_number (t : ℚ) (a : Alignment) :
    (flagLowConfidence t a).scene_number = a.scene_number := by
  unfold flagLowConfidence; split <;> rfl

theorem flag_alternative_matches (t : ℚ) (a : Alignment) :
    (flagLowConfidence t a).alternative_matches = a.alternative_matches := by
  unfold flagLowConfidence; split <;> rfl

theorem frameFields_flag (t : ℚ) (a : Alignment) :
    frameFields (flagLowConfidence t a) = frameFields a := by
  unfold flagLowConfidence frameFields; split <;> rfl

theorem flag_idem (t : ℚ) (a : Alignment) :
    flagLowConfidence t (flagLowConfidence t a) = flagLowConfidence t a := by
  unfold flagLowConfidence
  by_cases h : a.confidence < t
  · simp [h]
  · simp [h]

/-! ## Lemmas about one repair step -/

theorem repairStep_scene_number (p c : Alignment) :
    (repairStep p c).scene_number = c.scene_number := by
  unfold repairStep
  split
  · dsimp only
    split <;> rfl
  · rfl

theorem frameFields_repairStep (p c : Alignment) :
    frameFields (repairStep p c) = frameFields c := by
  unfold repairStep frameFields
  split
  · dsimp only
    split <;> rfl
  · rfl

theorem repairStep_temporalOk (p c : Alignment) :
    TemporalOk p (repairStep p c) := by
  unfold TemporalOk repairStep
  split
  · dsimp only
    split
    · next alt halt =>
      right
      simpa using List.find?_some halt
    · left; rfl
  · next h => right; exact le_of_not_lt h

theorem repairStep_eq_self (p c : Alignment)
    (h : p.video_end_time ≤ c.video_start_time) : repairStep p c = c := by
  unfold repairStep
  rw [if_neg (not_lt.mpr h)]

theorem repairStep_confWithin01 (p c : Alignment) (hc : ConfWithin01 c) :
    ConfWithin01 (repairStep p c) := by
  obtain ⟨⟨h0, h1⟩, halts⟩ := hc
  unfold ConfWithin01 repairStep
  split
  · dsimp only
    split
    · next alt halt =>
      have hmem : alt ∈ c.alternative_matches := List.mem_of_find?_eq_some halt
      exact ⟨halts alt hmem, halts⟩
    · refine ⟨⟨?_, ?_⟩, halts⟩
      · have : (0:ℚ) ≤ 1 - overlap_penalty := by unfold overlap_penalty; norm_num
        exact mul_nonneg h0 this
      · unfold overlap_penalty
        nlinarith
  · exact ⟨⟨h0, h1⟩, halts⟩

/-! ## Lemmas about the repair pass -/

theorem repairPassGo_map_frameFields (l : List Alignment) :
    ∀ p, (repairPassGo p l).map frameFields = l.map frameFields := by
  induction l with
  | nil => intro p; rfl
  | cons c rest ih =>
    intro p
    simp only [repairPassGo, List.map_cons]
    rw [frameFields_repairStep, ih]

theorem repairPass_map_frameFields (l : List Alignment) :
    (repairPass l).map frameFields = l.map frameFields := by
  cases l with
  | nil => rfl
  | cons a rest =>
    simp only [repairPass, List.map_cons]
    rw [repairPassGo_map_frameFields]

theorem repairPassGo_mem_confWithin01 (l : List Alignment) :
    ∀ p, (∀ x ∈ l, ConfWithin01 x) →
      ∀ a ∈ repairPassGo p l, ConfWithin01 a := by
  induction l with
  | nil => intro p _ a ha; simp [repairPassGo] at ha
  | cons c rest ih =>
    intro p hl a ha
    simp only [repairPassGo, List.mem_cons] at ha
    rcases ha with ha | ha
    · subst ha
      exact repairStep_confWithin01 p c (hl c (List.mem_cons_self c rest))
    · exact ih _ (fun x hx => hl x (List.mem_cons_of_mem c hx)) a ha

theorem repairPass_mem_confWithin01 (l : List Alignment)
    (hl : ∀ x ∈ l, ConfWithin01 x) :
    ∀ a ∈ repairPass l, ConfWithin01 a := by
  cases l with
  | nil => intro a ha; simp [repairPass] at ha
  | cons x rest =>
    intro a ha
    simp only [repairPass, List.mem_cons] at ha
    rcases ha with ha | ha
    · subst ha; exact hl a (List.mem_cons_self a rest)
    · exact repairPassGo_mem_confWithin01 rest x
        (fun y hy => hl y (List.mem_cons_of_mem x hy)) a ha

theorem repairPassGo_chain' (l : List Alignment) :
    ∀ p, List.Chain' TemporalOk (p :: repairPassGo p l) := by
  induction l with
  | nil => intro p; simp [repairPassGo]
  | cons c rest ih =>
    intro p
    simp only [repairPassGo]
    exact List.chain'_cons.mpr ⟨repairStep_temporalOk p c, ih (repairStep p c)⟩

theorem repairPass_chain' (l : List Alignment) :
    List.Chain' TemporalOk (repairPass l) := by
  cases l with
  | nil => simp [repairPass]
  | cons a rest => exact repairPassGo_chain' rest a

theorem repairPassGo_sceneChain (l : List Alignment) :
    ∀ p q, List.Chain' SceneOrdered (p :: l) →
      q.scene_number = p.scene_number →
      List.Chain' SceneOrdered (q :: repairPassGo q l) := by
  induction l with
  | nil => intro p q _ _; simp [repairPassGo]
  | cons c rest ih =>
    intro p q h hq
    obtain ⟨hpc, hrest⟩ := List.chain'_cons.mp h
    simp only [repairPassGo]
    refine List.chain'_cons.mpr ⟨?_, ?_⟩
    · unfold SceneOrdered at hpc ⊢
      rw [repairStep_scene_number, hq]
      exact hpc
    · exact ih c (repairStep q c) hrest (repairStep_scene_number q c)

theorem repairPass_sceneChain (l : List Alignment)
    (h : List.Chain' SceneOrdered l) :
    List.Chain' SceneOrdered (repairPass l) := by
  cases l with
  | nil => simp [repairPass]
  | cons a rest => exact repairPassGo_sceneChain rest a a h rfl

theorem repairPassGo_eq_self (l : List Alignment) :
    ∀ p, List.Chain' NonOverlapping (p :: l) → repairPassGo p l = l := by
  induction l with
  | nil => intro p _; rfl
  | cons c rest ih =>
    intro p h
    obtain ⟨hpc, hrest⟩ := List.chain'_cons.mp h
    unfold NonOverlapping at hpc
    simp only [repairPassGo]
    rw [repairStep_eq_self p c hpc, ih c hrest]

theorem repairPass_eq_self (l : List Alignment)
    (h : List.Chain' NonOverlapping l) : repairPass l = l := by
  cases l with
  | nil => rfl
  | cons a rest =>
    simp only [repairPass]
    rw [repairPassGo_eq_self rest a h]

/-! ## Lemmas about the stable sort -/

theorem insertByScene_perm (a : Alignment) (l : List Alignment) :
    (insertByScene a l).Perm (a :: l) := by
  induction l with
  | nil => exact List.Perm.refl _
  | cons b bs ih =>
    unfold insertByScene
    split
    · exact List.Perm.refl _
    · exact (ih.cons b).trans (List.Perm.swap a b bs)

theorem sortByScene_perm (l : List Alignment) : (sortByScene l).Perm l := by
  induction l with
  | nil => exact List.Perm.refl _
  | cons a rest ih =>
    exact (insertByScene_perm a (sortByScene rest)).trans (ih.cons a)

theorem insertByScene_headOrder (a : Alignment) (l : List Alignment) :
    (insertByScene a l).head? = some a ∨ (insertByScene a l).head? = l.head? := by
  cases l with
  | nil => left; rfl
  | cons b bs =>
    unfold insertByScene
    split
    · left; rfl
    · right; rfl

theorem insertByScene_sceneChain (a : Alignment) (l : List Alignment)
    (h : List.Chain' SceneOrdered l) :
    List.Chain' SceneOrdered (insertByScene a l) := by
  induction l with
  | nil => simp [insertByScene]
  | cons b bs ih =>
    unfold insertByScene
    split
    · next hab => exact List.chain'_cons.mpr ⟨hab, h⟩
    · next hab =>
      have hba : SceneOrdered b a := le_of_not_le hab
      have hbs : List.Chain' SceneOrdered bs := h.tail
      refine List.chain'_cons'.mpr ⟨?_, ih hbs⟩
      intro y hy
      rcases insertByScene_headOrder a bs with hh | hh
      · rw [hh] at hy
        injection hy with hy
        subst hy
        exact hba
      · rw [hh] at hy
        cases bs with
        | nil => simp at hy
        | cons c cs =>
          injection hy with hy
          subst hy
          exact (List.chain'_cons.mp h).1

theorem sortByScene_sceneChain (l : List Alignment) :
    List.Chain' SceneOrdered (sortByScene l) := by
  induction l with
  | nil => simp [sortByScene]
  | cons a rest ih => exact insertByScene_sceneChain a (sortByScene rest) ih

theorem sortByScene_eq_self (l : List Alignment)
    (h : List.Chain' SceneOrdered l) : sortByScene l = l := by
  induction l with
  | nil => rfl
  | cons a rest ih =>
    have hrest : sortByScene rest = rest := ih h.tail
    show insertByScene a (sortByScene rest) = a :: rest
    rw [hrest]
    cases rest with
    | nil => rfl
    | cons b bs =>
      have hab : a.scene_number ≤ b.scene_number := (List.chain'_cons.mp h).1
      unfold insertByScene
      rw [if_pos hab]

/-! ## Scene-number chains transfer between the passes -/

theorem refine_sceneChain (threshold : ℚ) (xs : List Alignment) :
    List.Chain' SceneOrdered (refine_alignment_temporal threshold xs) := by
  unfold refine_alignment_temporal
  rw [List.chain'_map]
  apply (repairPass_sceneChain (sortByScene xs) (sortByScene_sceneChain xs)).imp
  intro a b hab
  unfold SceneOrdered at hab ⊢
  rw [flag_scene_number, flag_scene_number]
  exact hab

/-! ## C8, C9, C10 -/

/-- C8: after the Temporal Refiner, an alignment carries
`manual_review_required = true` exactly when its final post-repair
confidence is strictly below the threshold 0.7, and whenever it is below,
`flagged_reason` is set to `"low_confidence_alignment"`; at confidence
exactly 0.7 the flag is `false`. -/
theorem C8_low_confidence_flagging (xs : List Alignment) (a : Alignment)
    (ha : a ∈ refine_alignment_temporal ALIGNMENT_CONFIDENCE_THRESHOLD xs) :
    (a.manual_review_required = true ↔ a.confidence < ALIGNMENT_CONFIDENCE_THRESHOLD)
    ∧ (a.confidence < ALIGNMENT_CONFIDENCE_THRESHOLD →
        a.flagged_reason = some "low_confidence_alignment") := by
  unfold refine_alignment_temporal at ha
  rcases List.mem_map.mp ha with ⟨b, _, hb⟩
  subst hb
  unfold flagLowConfidence
  by_cases h : b.confidence < ALIGNMENT_CONFIDENCE_THRESHOLD
  · rw [if_pos h]
    exact ⟨by simpa using h, fun _ => rfl⟩
  · rw [if_neg h]
    constructor
    · simpa using h
    · intro hlt
      exact absurd hlt h

unseal Rat.add Rat.mul Rat.sub Rat.inv in
/-- C8 witness: a single alignment with confidence 1/2 is flagged by the
Refiner, and the flagging biconditional holds at it. -/
theorem C8_witness :
    (exAlignLowFlagged.manual_review_required = true
      ↔ exAlignLowFlagged.confidence < ALIGNMENT_CONFIDENCE_THRESHOLD)
    ∧ (exAlignLowFlagged.confidence < ALIGNMENT_CONFIDENCE_THRESHOLD →
        exAlignLowFlagged.flagged_reason = some "low_confidence_alignment") :=
  C8_low_confidence_flagging [exAlignLow] exAlignLowFlagged (by decide)

/-- C9: in the Temporal Refiner's output (which is ordered by scene
number), every consecutive pair satisfies: the later alignment is flagged
`temporal_conflict = true`, or its `video_start_time` is at or after the
earlier alignment's final (possibly repaired) `video_end_time`. -/
theorem C9_unflagged_pairs_ordered (threshold : ℚ) (xs : List Alignment) :
    List.Chain' TemporalOk (refine_alignment_temporal threshold xs) := by
  unfold refine_alignment_temporal
  rw [List.chain'_map]
  apply (repairPass_chain' (sortByScene xs)).imp
  intro a b hab
  unfold TemporalOk at hab ⊢
  rw [flag_temporal_conflict, flag_video_end_time, flag_video_start_time]
  exact hab

/-- C10: the Temporal Refiner preserves length and the multiset of
(`scene_number`, `scene_text`, `confidence_factors`, `alternative_matches`)
tuples — it never writes those four fields, and only reorders the records
while possibly rewriting the time span, matched segment, confidence and
review flags. -/
theorem C10_frame_preservation (threshold : ℚ) (xs : List Alignment) :
    (refine_alignment_temporal threshold xs).length = xs.length
    ∧ ((refine_alignment_temporal threshold xs).map frameFields).Perm
        (xs.map frameFields) := by
  have hmap : (refine_alignment_temporal threshold xs).map frameFields
      = (sortByScene xs).map frameFields := by
    unfold refine_alignment_temporal
    rw [List.map_map]
    have hcomp : frameFields ∘ flagLowConfidence threshold = frameFields :=
      funext (fun a => frameFields_flag threshold a)
    rw [hcomp, repairPass_map_frameFields]
  constructor
  · have h1 := congrArg List.length hmap
    rw [List.length_map, List.length_map] at h1
    rw [h1]
    exact (sortByScene_perm xs).length_eq
  · rw [hmap]
    exact (sortByScene_perm xs).map frameFields

/-! ## C3 -/

theorem chain'_of_nonOverlapB :
    ∀ l : List Alignment, nonOverlapB l = true → List.Chain' NonOverlapping l
  | [], _ => List.chain'_nil
  | [a], _ => List.chain'_singleton a
  | p :: c :: rest, h => by
    unfold nonOverlapB at h
    rw [Bool.and_eq_true] at h
    exact List.chain'_cons.mpr
      ⟨of_decide_eq_true h.1, chain'_of_nonOverlapB (c :: rest) h.2⟩

unseal Rat.add Rat.mul Rat.sub Rat.inv in
/-- C3 counterexample: on two overlapping alignments with no alternative
matches, the Temporal Refiner is not idempotent — the second pass applies
the 30% penalty to the still-unrepaired conflict again (confidence 0.7
becomes 0.49 and the manual-review flag flips). -/
theorem C3_counterexample :
    refine_alignment_temporal ALIGNMENT_CONFIDENCE_THRESHOLD
        (refine_alignment_temporal ALIGNMENT_CONFIDENCE_THRESHOLD
          [exAlignOne, exAlignTwo])
      ≠ refine_alignment_temporal ALIGNMENT_CONFIDENCE_THRESHOLD
          [exAlignOne, exAlignTwo] := by
  decide

/-- C3 (amended): the Temporal Refiner is idempotent on every input whose
refined output contains no remaining overlapping consecutive pair (all
conflicts repaired, or none present); when an overlap survives the first
pass, the second pass multiplies that alignment's confidence by 0.7 again,
so the general claim fails. -/
theorem C3_refiner_fixed_point (threshold : ℚ) (xs : List Alignment)
    (h : nonOverlapB (refine_alignment_temporal threshold xs) = true) :
    refine_alignment_temporal threshold (refine_alignment_temporal threshold xs)
      = refine_alignment_temporal threshold xs := by
  have h := chain'_of_nonOverlapB _ h
  have hsorted := refine_sceneChain threshold xs
  have refine_unfold : ∀ l : List Alignment,
      refine_alignment_temporal threshold l
        = (repairPass (sortByScene l)).map (flagLowConfidence threshold) :=
    fun _ => rfl
  have hflag : flagLowConfidence threshold ∘ flagLowConfidence threshold
      = flagLowConfidence threshold := funext (fun a => flag_idem threshold a)
  rw [refine_unfold (refine_alignment_temporal threshold xs)]
  rw [sortByScene_eq_self _ hsorted, repairPass_eq_self _ h]
  rw [refine_unfold xs, List.map_map, hflag]

unseal Rat.add Rat.mul Rat.sub Rat.inv in
/-- C3 witness: two disjoint alignments refine to a conflict-free output,
and on them the Refiner is a fixed point. -/
theorem C3_witness :
    refine_alignment_temporal ALIGNMENT_CONFIDENCE_THRESHOLD
        (refine_alignment_temporal ALIGNMENT_CONFIDENCE_THRESHOLD
          [exAlignOne, exAlignThree])
      = refine_alignment_temporal ALIGNMENT_CONFIDENCE_THRESHOLD
          [exAlignOne, exAlignThree] :=
  C3_refiner_fixed_point ALIGNMENT_CONFIDENCE_THRESHOLD
    [exAlignOne, exAlignThree] (by decide)

/-! ## C4 -/

unseal Rat.add Rat.mul Rat.sub Rat.inv in
/-- C4 counterexample: on the empty alignment list the Quality Validator
does NOT return `temporal_consistency = 0` and `needs_manual_review =
false` — the code's guarded branch returns `temporal_consistency = 1.0`,
which makes the overall score 0.2 < 0.6 and therefore
`needs_manual_review = true`. -/
theorem C4_counterexample :
    ¬ ((validate_alignment_quality []).quality_factors.temporal_consistency = 0
      ∧ (validate_alignment_quality []).needs_manual_review = false) := by
  decide

unseal Rat.add Rat.mul Rat.sub Rat.inv in
/-- C4 (amended): the Quality Validator on the empty list never fails and
returns `total_scenes = 0`, `average_confidence = 0`,
`high_confidence_ratio = 0`, `temporal_consistency = 1` (not 0),
`quality_score = 0.2` and `needs_manual_review = true` (not false). -/
theorem C4_empty_validator :
    (validate_alignment_quality []).scene_statistics.total_scenes = 0
    ∧ (validate_alignment_quality []).quality_factors.average_confidence = 0
    ∧ (validate_alignment_quality []).quality_factors.high_confidence_ratio = 0
    ∧ (validate_alignment_quality []).quality_factors.temporal_consistency = 1
    ∧ (validate_alignment_quality []).quality_score = 1/5
    ∧ (validate_alignment_quality []).needs_manual_review = true := by
  decide

/-! ## C1 and C6: evaluations at the failing inputs -/

/-- C1: on a script yielding three scenes the Script Segmenter assigns
scene numbers `[1, 1, 2]` — the second scene reuses number 1 because the
running counter is read before it is incremented — contradicting the
specified numbering `1, 2, ..., n` with no duplicates. -/
theorem C1_duplicate_scene_numbers :
    (parse_script_content exScriptText).map (fun s => s.scene_number)
      = [1, 1, 2] := by
  decide

unseal Rat.add Rat.mul Rat.sub Rat.inv in
/-- C6: two words that are equal as values make `word == words[-1]` close
the group after the FIRST word, yielding two one-word segments instead of
the single ten-second group the specification (and the source's own
comment, "duration exceeded or at end") describes. -/
theorem C6_duplicate_word_closes_group_early :
    create_segments_from_words [exWord, exWord] 10
      = [{ start := 0, «end» := 1, text := "the", confidence := 1/2 },
         { start := 0, «end» := 1, text := "the", confidence := 1/2 }] := by
  decide

/-! ## C7 -/

theorem buildWindow_singles : ∀ (l : List BaseSeg) (i : Nat),
    ((buildWindowSegments i l).filter
        (fun s => s.window_type = "single")).length = l.length
  | [], _ => rfl
  | s :: rest, i => by
    have ih := buildWindow_singles rest (i + 1)
    rcases rest with _ | ⟨b, _ | ⟨c, rest3⟩⟩
    · simp [buildWindowSegments]
    · simp [buildWindowSegments] at ih ⊢
      try omega
    · simp [buildWindowSegments] at ih ⊢
      try omega

theorem buildWindow_windows : ∀ (l : List BaseSeg) (i : Nat),
    ((buildWindowSegments i l).filter
        (fun s => s.window_type = "window")).length = (l.length + 1) - window_size
  | [], _ => rfl
  | s :: rest, i => by
    have ih := buildWindow_windows rest (i + 1)
    rcases rest with _ | ⟨b, _ | ⟨c, rest3⟩⟩
    · simp [buildWindowSegments, window_size]
    · simp [buildWindowSegments, window_size] at ih ⊢
      try omega
    · simp [buildWindowSegments, window_size] at ih ⊢
      try omega

/-- C7: for every transcript with non-empty `segments` supplied, the
Transcript Segmenter succeeds and emits exactly `len(segments)` entries of
window_type `"single"` and `max(0, len(segments) - window_size + 1)` (i.e.
`len(segments) + 1 - 3` in truncated Nat subtraction) entries of
window_type `"window"`. -/
theorem C7_single_window_counts (t : Transcript) (h : t.segments ≠ []) :
    process_transcript_segments t = .ok (buildWindowSegments 0 t.segments)
    ∧ ((buildWindowSegments 0 t.segments).filter
        (fun s => s.window_type = "single")).length = t.segments.length
    ∧ ((buildWindowSegments 0 t.segments).filter
        (fun s => s.window_type = "window")).length
      = (t.segments.length + 1) - window_size := by
  refine ⟨?_, buildWindow_singles t.segments 0, buildWindow_windows t.segments 0⟩
  unfold process_transcript_segments
  rw [if_neg]
  simpa [List.isEmpty_iff] using h

unseal Rat.add Rat.mul Rat.sub Rat.inv in
/-- C7 witness: a three-segment transcript yields 3 single entries and
exactly 1 window entry. -/
theorem C7_witness :
    process_transcript_segments exTranscript
        = .ok (buildWindowSegments 0 exTranscript.segments)
    ∧ ((buildWindowSegments 0 exTranscript.segments).filter
        (fun s => s.window_type = "single")).length = exTranscript.segments.length
    ∧ ((buildWindowSegments 0 exTranscript.segments).filter
        (fun s => s.window_type = "window")).length
      = (exTranscript.segments.length + 1) - window_size :=
  C7_single_window_counts exTranscript (by decide)

/-! ## C5 -/

/-- C5 counterexample: with an empty scene collection (its embedding list
is likewise empty) the Matcher fails with the embedding library's
`valueError` — not with `invalidInputError`, which appears nowhere in the
repository's code. -/
theorem C5_counterexample :
    perform_semantic_matching dotProduct [] [exSegment] [] [[1, 0]]
        = .error .valueError
    ∧ PyError.valueError ≠ PyError.invalidInputError :=
  ⟨rfl, by decide⟩

/-- C5 (amended): whenever the embeddings are those of the scene/segment
collections (equal lengths) and either collection is empty, the Matcher
fails rather than returning an alignment sequence — but with the
`ValueError` raised by `cosine_similarity`'s zero-sample input validation,
not with an `InvalidInputError` of its own. -/
theorem C5_empty_input_fails (sim : List ℚ → List ℚ → ℚ)
    (scenes : List Scene) (segments : List TSegment)
    (scene_embeddings segment_embeddings : List (List ℚ))
    (h1 : scene_embeddings.length = scenes.length)
    (h2 : segment_embeddings.length = segments.length)
    (h : scenes = [] ∨ segments = []) :
    perform_semantic_matching sim scenes segments scene_embeddings
        segment_embeddings = .error .valueError := by
  have hemp : scene_embeddings.isEmpty ∨ segment_embeddings.isEmpty := by
    rcases h with h | h
    · left
      subst h
      have : scene_embeddings = [] := List.eq_nil_of_length_eq_zero h1
      rw [this]
      rfl
    · right
      subst h
      have : segment_embeddings = [] := List.eq_nil_of_length_eq_zero h2
      rw [this]
      rfl
  unfold perform_semantic_matching cosine_similarity
  rw [if_pos hemp]

/-- C5 witness: the amended theorem applied at the concrete empty-scene
input. -/
theorem C5_witness :
    perform_semantic_matching dotProduct [] [exSegment] [] [[1, 0]]
        = .error .valueError :=
  C5_empty_input_fails dotProduct [] [exSegment] [] [[1, 0]] rfl rfl (Or.inl rfl)

/-! ## C2: confidence bounds -/

theorem compute_length_similarity_mem01 (scene : Scene) (s : TSegment)
    (h : s.start_time ≤ s.end_time) :
    0 ≤ compute_length_similarity scene s
    ∧ compute_length_similarity scene s ≤ 1 := by
  unfold compute_length_similarity
  dsimp only
  by_cases hz : (s.end_time - s.start_time) / 60 * 150 = 0
  · rw [if_pos hz]
    norm_num
  · rw [if_neg hz]
    have hd : (0:ℚ) ≤ s.end_time - s.start_time := by linarith
    have hest : (0:ℚ) ≤ (s.end_time - s.start_time) / 60 * 150 := by positivity
    have hpos : (0:ℚ) < (s.end_time - s.start_time) / 60 * 150 :=
      lt_of_le_of_ne hest (Ne.symm hz)
    have hsw : (0:ℚ) ≤ (scene.word_count : ℚ) := Nat.cast_nonneg _
    have hmax : (0:ℚ) < max ((scene.word_count : ℚ))
        ((s.end_time - s.start_time) / 60 * 150) := lt_max_of_lt_right hpos
    constructor
    · exact div_nonneg (le_min hsw hest) hmax.le
    · rw [div_le_one hmax]
      exact min_le_max

theorem compute_position_similarity_mem01 (i j n m : Nat)
    (hi : i < n) (hj : j < m) :
    0 ≤ compute_position_similarity i j n m
    ∧ compute_position_similarity i j n m ≤ 1 := by
  unfold compute_position_similarity
  dsimp only
  have hnpos : (0:ℚ) < ((max 1 (n - 1) : Nat) : ℚ) := by
    exact_mod_cast (by omega : 0 < max 1 (n - 1))
  have hmpos : (0:ℚ) < ((max 1 (m - 1) : Nat) : ℚ) := by
    exact_mod_cast (by omega : 0 < max 1 (m - 1))
  have h1 : (0:ℚ) ≤ (i : ℚ) / ((max 1 (n - 1) : Nat) : ℚ) :=
    div_nonneg (Nat.cast_nonneg _) hnpos.le
  have h2 : (i : ℚ) / ((max 1 (n - 1) : Nat) : ℚ) ≤ 1 := by
    rw [div_le_one hnpos]
    exact_mod_cast (by omega : i ≤ max 1 (n - 1))
  have h3 : (0:ℚ) ≤ (j : ℚ) / ((max 1 (m - 1) : Nat) : ℚ) :=
    div_nonneg (Nat.cast_nonneg _) hmpos.le
  have h4 : (j : ℚ) / ((max 1 (m - 1) : Nat) : ℚ) ≤ 1 := by
    rw [div_le_one hmpos]
    exact_mod_cast (by omega : j ≤ max 1 (m - 1))
  have habs : |(i : ℚ) / ((max 1 (n - 1) : Nat) : ℚ)
      - (j : ℚ) / ((max 1 (m - 1) : Nat) : ℚ)| ≤ 1 :=
    abs_le.mpr ⟨by linarith, by linarith⟩
  have habs0 : (0:ℚ) ≤ |(i : ℚ) / ((max 1 (n - 1) : Nat) : ℚ)
      - (j : ℚ) / ((max 1 (m - 1) : Nat) : ℚ)| := abs_nonneg _
  constructor
  · linarith
  · linarith

theorem mapExcept_ok_mem {α β : Type} {f : α → Except PyError β} :
    ∀ {l : List α} {ys : List β}, mapExcept f l = .ok ys →
      ∀ y ∈ ys, ∃ x ∈ l, f x = .ok y := by
  intro l
  induction l with
  | nil =>
    intro ys h y hy
    unfold mapExcept at h
    injection h with h
    subst h
    simp at hy
  | cons x xs ih =>
    intro ys h y hy
    unfold mapExcept at h
    split at h
    · exact Except.noConfusion h
    · next yv hx =>
      split at h
      · exact Except.noConfusion h
      · next ys2 hxs =>
        injection h with h
        subst h
        rcases List.mem_cons.mp hy with hy | hy
        · subst hy
          exact ⟨x, List.mem_cons_self x xs, hx⟩
        · rcases ih hxs y hy with ⟨x2, hx2, hfx2⟩
          exact ⟨x2, List.mem_cons_of_mem x hx2, hfx2⟩

theorem buildAltMatch_conf_mem01 {segments : List TSegment} {row : List ℚ}
    {idx : Nat} {alt : AltMatch}
    (hrow : ∀ v ∈ row, 0 ≤ v ∧ v ≤ 1)
    (h : buildAltMatch segments row idx = .ok alt) :
    0 ≤ alt.confidence ∧ alt.confidence ≤ 1 := by
  unfold buildAltMatch at h
  split at h
  · next seg v hseg hv =>
    injection h with h
    subst h
    exact hrow v (List.getElem?_mem hv)
  · exact Except.noConfusion h

theorem matchScene_confWithin01 {total_scenes total_segments : Nat}
    {segments : List TSegment} {i : Nat} {scene : Scene} {row : List ℚ}
    {a : Alignment}
    (hrow : ∀ v ∈ row, 0 ≤ v ∧ v ≤ 1)
    (hseg : ∀ s ∈ segments,
      (0 ≤ s.confidence ∧ s.confidence ≤ 1) ∧ s.start_time ≤ s.end_time)
    (hi : i < total_scenes)
    (hts : total_segments = segments.length)
    (h : matchScene total_scenes total_segments segments i scene row = .ok a) :
    ConfWithin01 a := by
  unfold matchScene at h
  split at h
  · exact Except.noConfusion h
  · next best alt_indices _ =>
    split at h
    · next best_segment v hbestseg hv =>
      dsimp only at h
      split at h
      · exact Except.noConfusion h
      · next alts halts =>
        injection h with h
        subst h
        have hv01 := hrow v (List.getElem?_mem hv)
        have hbs_mem : best_segment ∈ segments := List.getElem?_mem hbestseg
        have hbs := hseg best_segment hbs_mem
        have hlen := compute_length_similarity_mem01 scene best_segment hbs.2
        have hbest_lt : best < segments.length := by
          rcases List.getElem?_eq_some.mp hbestseg with ⟨hlt, _⟩
          exact hlt
        have hpos := compute_position_similarity_mem01 i best total_scenes
          total_segments hi (by rw [hts]; exact hbest_lt)
        unfold ConfWithin01
        constructor
        · constructor
          · dsimp only
            linarith [hv01.1, hv01.2, hlen.1, hlen.2, hpos.1, hpos.2,
              hbs.1.1, hbs.1.2]
          · dsimp only
            linarith [hv01.1, hv01.2, hlen.1, hlen.2, hpos.1, hpos.2,
              hbs.1.1, hbs.1.2]
        · intro alt halt
          dsimp only at halt
          rcases mapExcept_ok_mem halts alt halt with ⟨idx, _, hba⟩
          exact buildAltMatch_conf_mem01 hrow hba
    · exact Except.noConfusion h

theorem matchScenesGo_confWithin01 {segments : List TSegment}
    {total_scenes total_segments : Nat}
    (hseg : ∀ s ∈ segments,
      (0 ≤ s.confidence ∧ s.confidence ≤ 1) ∧ s.start_time ≤ s.end_time)
    (hts : total_segments = segments.length) :
    ∀ (scenes : List Scene) (i : Nat) (rows : List (List ℚ))
      (alis : List Alignment),
      (∀ row ∈ rows, ∀ v ∈ row, 0 ≤ v ∧ v ≤ 1) →
      i + scenes.length ≤ total_scenes →
      matchScenesGo segments total_scenes total_segments i scenes rows
        = .ok alis →
      ∀ a ∈ alis, ConfWithin01 a := by
  intro scenes
  induction scenes with
  | nil =>
    intro i rows alis _ _ h a ha
    unfold matchScenesGo at h
    injection h with h
    subst h
    simp at ha
  | cons scene rest ih =>
    intro i rows alis hrows hlen h a ha
    cases rows with
    | nil =>
      unfold matchScenesGo at h
      exact Except.noConfusion h
    | cons row rows2 =>
      unfold matchScenesGo at h
      split at h
      · exact Except.noConfusion h
      · next a1 ha1 =>
        split at h
        · exact Except.noConfusion h
        · next rest2 hrest2 =>
          injection h with h
          subst h
          rcases List.mem_cons.mp ha with ha | ha
          · subst ha
            refine matchScene_confWithin01
              (hrows row (List.mem_cons_self row rows2)) hseg ?_ hts ha1
            simp only [List.length_cons] at hlen
            omega
          · refine ih (i + 1) rows2 rest2
              (fun r hr => hrows r (List.mem_cons_of_mem row hr)) ?_ hrest2 a ha
            simp only [List.length_cons] at hlen
            omega

theorem mem_sortByScene {a : Alignment} {l : List Alignment}
    (h : a ∈ sortByScene l) : a ∈ l :=
  (sortByScene_perm l).mem_iff.mp h

theorem refine_mem_conf01 (threshold : ℚ) (xs : List Alignment)
    (hxs : ∀ x ∈ xs, ConfWithin01 x) :
    ∀ a ∈ refine_alignment_temporal threshold xs,
      0 ≤ a.confidence ∧ a.confidence ≤ 1 := by
  intro a ha
  unfold refine_alignment_temporal at ha
  rcases List.mem_map.mp ha with ⟨b, hb, hba⟩
  subst hba
  rw [flag_confidence]
  have hb2 : ConfWithin01 b :=
    repairPass_mem_confWithin01 (sortByScene xs)
      (fun y hy => hxs y (mem_sortByScene hy)) b hb
  exact hb2.1

unseal Rat.add Rat.mul Rat.sub Rat.inv in
/-- C2 counterexample: embedding vectors can make the cosine similarity
negative (unit vectors (1,0) and (-1,0) have cosine exactly -1, computed
here as their dot product), and then the Matcher's composite confidence is
`-1*0.5 + 0*0.2 + 1*0.2 + 0*0.1 = -0.3 < 0` — there is no clamp. -/
theorem C2_counterexample :
    okConfidences (perform_semantic_matching dotProduct [exScene] [exSegment]
        [[1, 0]] [[-1, 0]]) = [-(3/10)]
    ∧ ¬ (0 ≤ -((3:ℚ)/10)) := by
  constructor
  · decide
  · decide

/-- C2 (amended): if every pairwise similarity value lies in [0,1] (cosine
similarity of arbitrary embeddings only guarantees [-1,1], so this is a
genuine restriction) and every segment has confidence in [0,1] and a
non-negative duration, then every alignment the Matcher returns has
composite confidence in [0,1], and all confidences remain in [0,1] after
the Temporal Refiner's penalty and alternate substitution. -/
theorem C2_confidence_bounded (sim : List ℚ → List ℚ → ℚ)
    (scenes : List Scene) (segments : List TSegment)
    (scene_embeddings segment_embeddings : List (List ℚ))
    (threshold : ℚ) (alis : List Alignment)
    (hsim : ∀ x ∈ scene_embeddings, ∀ y ∈ segment_embeddings,
      0 ≤ sim x y ∧ sim x y ≤ 1)
    (hseg : ∀ s ∈ segments,
      (0 ≤ s.confidence ∧ s.confidence ≤ 1) ∧ s.start_time ≤ s.end_time)
    (hok : perform_semantic_matching sim scenes segments scene_embeddings
      segment_embeddings = .ok alis) :
    (∀ a ∈ alis, 0 ≤ a.confidence ∧ a.confidence ≤ 1)
    ∧ ∀ a ∈ refine_alignment_temporal threshold alis,
        0 ≤ a.confidence ∧ a.confidence ≤ 1 := by
  unfold perform_semantic_matching at hok
  split at hok
  · exact Except.noConfusion hok
  · next M hM =>
    unfold cosine_similarity at hM
    split at hM
    · exact Except.noConfusion hM
    · injection hM with hM
      subst hM
      have hrows : ∀ row ∈ scene_embeddings.map
          (fun x => segment_embeddings.map (fun y => sim x y)),
          ∀ v ∈ row, 0 ≤ v ∧ v ≤ 1 := by
        intro row hrow v hv
        rcases List.mem_map.mp hrow with ⟨x, hx, hxrow⟩
        subst hxrow
        rcases List.mem_map.mp hv with ⟨y, hy, hyv⟩
        subst hyv
        exact hsim x hx y hy
      have hall : ∀ a ∈ alis, ConfWithin01 a :=
        matchScenesGo_confWithin01 hseg rfl scenes 0 _ alis hrows
          (by simp) hok
      exact ⟨fun a ha => (hall a ha).1,
        refine_mem_conf01 threshold alis (fun x hx => hall x hx)⟩

unseal Rat.add Rat.mul Rat.sub Rat.inv in
/-- C2 witness: one scene matched against one zero-duration segment with
unit embeddings (cosine 1) produces confidence 0.7, which stays in [0,1]
through the Refiner. -/
theorem C2_witness :
    (∀ a ∈ [exMatchedAlignment], 0 ≤ a.confidence ∧ a.confidence ≤ 1)
    ∧ ∀ a ∈ refine_alignment_temporal ALIGNMENT_CONFIDENCE_THRESHOLD
        [exMatchedAlignment],
        0 ≤ a.confidence ∧ a.confidence ≤ 1 :=
  C2_confidence_bounded dotProduct [exScene] [exSegment] [[1, 0]] [[1, 0]]
    ALIGNMENT_CONFIDENCE_THRESHOLD [exMatchedAlignment]
    (by decide) (by decide) (by rfl)

end MovieRecap
